import Mathlib

/-!
Verification of the whatsmeow-rs client core: the event envelope decoder
(`events.rs`), the polling loop (`inner.rs`), the multi-client manager
(`manager.rs`), the event stream (`stream.rs` / `event_bus.rs`) and the FFI
send validation (`ffi.rs`), shallowly embedded in Lean 4.
-/

namespace Whatsmeow

/-- Model of `serde_json::Value`: a JSON tree.  Numbers are restricted to
integers, which covers every payload field the decoder reads (all numeric
fields in `events.rs` are `i32`/`i64`/`u16`). -/
inductive Json where
  | null
  | bool (flag : Bool)
  | num (value : Int)
  | str (text : String)
  | arr (items : List Json)
  | obj (fields : List (String × Json))
deriving Repr

/-- Model of `Value::get(key)`: field lookup on an object, `None` on any
other variant. -/
def Json.get (j : Json) (k : String) : Option Json :=
  match j with
  | .obj fs => fs.lookup k
  | _ => none

/-- Model of `Value::as_str`. -/
def Json.asStr (j : Json) : Option String :=
  match j with
  | .str s => some s
  | _ => none

/-- Model of `Value::as_bool`. -/
def Json.asBool (j : Json) : Option Bool :=
  match j with
  | .bool b => some b
  | _ => none

/-- Model of reading an integer number out of a `Value`. -/
def Json.asInt (j : Json) : Option Int :=
  match j with
  | .num n => some n
  | _ => none

/-- Whitespace skipping for the JSON text parser. -/
def skipWs : List Char → List Char
  | c :: rest =>
    if c = ' ' ∨ c = '\n' ∨ c = '\t' ∨ c = '\r' then skipWs rest else c :: rest
  | [] => []

/-- Escape resolution inside a JSON string literal (the subset of escapes
the event envelopes use: quote, backslash, slash, newline, tab, carriage
return). -/
def escVal (c : Char) : Option Char :=
  if c = '"' ∨ c = '\\' ∨ c = '/' then some c
  else if c = 'n' then some (Char.ofNat 10)
  else if c = 't' then some (Char.ofNat 9)
  else if c = 'r' then some (Char.ofNat 13)
  else none

/-- Parse the body of a JSON string literal (after the opening quote),
returning the decoded characters and the input after the closing quote. -/
def parseStringChars : List Char → Option (List Char × List Char)
  | [] => none
  | '"' :: rest => some ([], rest)
  | '\\' :: e :: rest =>
    match escVal e, parseStringChars rest with
    | some c, some (cs, r) => some (c :: cs, r)
    | _, _ => none
  | ['\\'] => none
  | c :: rest =>
    match parseStringChars rest with
    | none => none
    | some (cs, r) => some (c :: cs, r)

/-- Parse a nonempty run of decimal digits. -/
def parseNat (l : List Char) : Option (Nat × List Char) :=
  let digits := l.takeWhile Char.isDigit
  if digits.isEmpty then none
  else some (digits.foldl (fun a c => a * 10 + (c.toNat - 48)) 0, l.dropWhile Char.isDigit)

/-- Parse a JSON integer (optional leading minus). -/
def parseNumber (l : List Char) : Option (Int × List Char) :=
  match l with
  | '-' :: rest =>
    match parseNat rest with
    | some (n, r) => some (-(n : Int), r)
    | none => none
  | _ =>
    match parseNat l with
    | some (n, r) => some ((n : Int), r)
    | none => none

/-- Drop the expected tail of a keyword literal (`rue`, `alse`, `ull`)
from the front of the input, when present. -/
def stripLit (lit : String) (l : List Char) : Option (List Char) :=
  if lit.toList.isPrefixOf l then some (l.drop lit.toList.length) else none

mutual

/-- Fueled recursive-descent parser for one JSON value, modelling
`serde_json::from_slice` on the integer-numeric JSON subset the native
layer emits. -/
def parseValue : Nat → List Char → Option (Json × List Char)
  | 0, _ => none
  | fuel + 1, input =>
    match skipWs input with
    | [] => none
    | c :: after =>
      if c = 't' then
        match stripLit "rue" after with
        | some s1 => some (Json.bool true, s1)
        | none => none
      else if c = 'f' then
        match stripLit "alse" after with
        | some s1 => some (Json.bool false, s1)
        | none => none
      else if c = 'n' then
        match stripLit "ull" after with
        | some s1 => some (Json.null, s1)
        | none => none
      else if c = '"' then
        match parseStringChars after with
        | some (cs, s1) => some (Json.str (String.mk cs), s1)
        | none => none
      else if c = '[' then
        match skipWs after with
        | ']' :: s1 => some (Json.arr [], s1)
        | s1 =>
          match parseElems fuel s1 with
          | some (xs, s2) => some (Json.arr xs, s2)
          | none => none
      else if c = Char.ofNat 123 then
        match skipWs after with
        | '\x7d' :: s1 => some (Json.obj [], s1)
        | s1 =>
          match parseMembers fuel s1 with
          | some (fs, s2) => some (Json.obj fs, s2)
          | none => none
      else
        match parseNumber (c :: after) with
        | some (n, s1) => some (Json.num n, s1)
        | none => none

/-- Parse the comma-separated elements of a nonempty JSON array, up to and
including the closing bracket. -/
def parseElems : Nat → List Char → Option (List Json × List Char)
  | 0, _ => none
  | fuel + 1, input =>
    match parseValue fuel input with
    | none => none
    | some (v, s1) =>
      match skipWs s1 with
      | ']' :: s2 => some ([v], s2)
      | ',' :: s2 =>
        (match parseElems fuel s2 with
         | some (vs, s3) => some (v :: vs, s3)
         | none => none)
      | _ => none

/-- Parse the members of a nonempty JSON object, up to and including the
closing brace. -/
def parseMembers : Nat → List Char → Option (List (String × Json) × List Char)
  | 0, _ => none
  | fuel + 1, input =>
    match skipWs input with
    | '"' :: afterQuote =>
      (match parseStringChars afterQuote with
       | none => none
       | some (keyChars, s1) =>
         match skipWs s1 with
         | ':' :: s2 =>
           (match parseValue fuel s2 with
            | none => none
            | some (v, s3) =>
              match skipWs s3 with
              | '\x7d' :: s4 => some ([(String.mk keyChars, v)], s4)
              | ',' :: s4 =>
                (match parseMembers fuel s4 with
                 | some (ms, s5) => some ((String.mk keyChars, v) :: ms, s5)
                 | none => none)
              | _ => none)
         | _ => none)
    | _ => none

end

/-- Parse a whole JSON document from text: model of `serde_json` parsing of
one event envelope buffer.  Malformed input yields an explicit error. -/
def parseJson (s : String) : Except String Json :=
  let l := s.toList
  match parseValue (2 * l.length + 2) l with
  | some (j, rest) =>
    if (skipWs rest).isEmpty then .ok j else .error "trailing characters"
  | none => .error "malformed JSON"

/-- Serde-derive model: a required `String` field (missing field or wrong
type is a deserialization error). -/
def reqStr (j : Json) (k : String) : Except String String :=
  match j.get k with
  | none => .error ("missing field " ++ k)
  | some v =>
    match v.asStr with
    | some s => .ok s
    | none => .error ("invalid type for field " ++ k)

/-- Serde-derive model: a `String` field with `serde(default)` (missing
yields the empty string, a present field of the wrong type errors). -/
def defStr (j : Json) (k : String) : Except String String :=
  match j.get k with
  | none => .ok ""
  | some v =>
    match v.asStr with
    | some s => .ok s
    | none => .error ("invalid type for field " ++ k)

/-- Serde-derive model: a required `bool` field. -/
def reqBool (j : Json) (k : String) : Except String Bool :=
  match j.get k with
  | none => .error ("missing field " ++ k)
  | some v =>
    match v.asBool with
    | some b => .ok b
    | none => .error ("invalid type for field " ++ k)

/-- Serde-derive model: a `bool` field with `serde(default)`. -/
def defBool (j : Json) (k : String) : Except String Bool :=
  match j.get k with
  | none => .ok false
  | some v =>
    match v.asBool with
    | some b => .ok b
    | none => .error ("invalid type for field " ++ k)

/-- Serde-derive model: a required integer field (`i32`/`i64`/`u16`). -/
def reqInt (j : Json) (k : String) : Except String Int :=
  match j.get k with
  | none => .error ("missing field " ++ k)
  | some v =>
    match v.asInt with
    | some n => .ok n
    | none => .error ("invalid type for field " ++ k)

/-- Serde-derive model: a `u16` field with `serde(default)`. -/
def defInt (j : Json) (k : String) : Except String Int :=
  match j.get k with
  | none => .ok 0
  | some v =>
    match v.asInt with
    | some n => .ok n
    | none => .error ("invalid type for field " ++ k)

/-- Serde-derive model: a required `Vec<String>` field. -/
def reqStrList (j : Json) (k : String) : Except String (List String) :=
  match j.get k with
  | none => .error ("missing field " ++ k)
  | some (.arr xs) =>
    match xs.mapM Json.asStr with
    | some ss => .ok ss
    | none => .error ("invalid type for field " ++ k)
  | some _ => .error ("invalid type for field " ++ k)

/-- Serde-derive model: an `Option<Value>` field with `serde(default)`:
missing or `null` becomes `none`, anything else is kept verbatim. -/
def optValue (j : Json) (k : String) : Option Json :=
  match j.get k with
  | none => none
  | some .null => none
  | some v => some v

/-- Embedding of `QrEvent` in `events.rs`. -/
structure QrEvent where
  codes : List String
deriving Repr, DecidableEq

/-- Embedding of `QrEvent::code`. -/
def QrEvent.code (e : QrEvent) : Option String :=
  e.codes.head?

/-- Serde deserialization of `QrEvent` (field `Codes`). -/
def QrEvent.fromValue (j : Json) : Except String QrEvent := do
  let codes ← reqStrList j "Codes"
  .ok ⟨codes⟩

/-- Embedding of `PairSuccessEvent` in `events.rs` (`Jid` is a newtype over
`String`, so the `id` field deserializes from a JSON string). -/
structure PairSuccessEvent where
  id : String
  business_name : String
  platform : String
deriving Repr, DecidableEq

/-- Serde deserialization of `PairSuccessEvent` (fields `ID`,
`BusinessName`, `Platform`, all required). -/
def PairSuccessEvent.fromValue (j : Json) : Except String PairSuccessEvent := do
  let id ← reqStr j "ID"
  let bn ← reqStr j "BusinessName"
  let pf ← reqStr j "Platform"
  .ok ⟨id, bn, pf⟩

/-- Embedding of `LoggedOutEvent` in `events.rs`. -/
structure LoggedOutEvent where
  on_connect : Bool
  reason : Int
deriving Repr, DecidableEq

/-- Serde deserialization of `LoggedOutEvent` (fields `OnConnect`,
`Reason`, both required). -/
def LoggedOutEvent.fromValue (j : Json) : Except String LoggedOutEvent := do
  let oc ← reqBool j "OnConnect"
  let rs ← reqInt j "Reason"
  .ok ⟨oc, rs⟩

/-- Embedding of `MessageInfo` in `events.rs`. -/
structure MessageInfo where
  id : String
  chat : String
  sender : String
  sender_alt : String
  is_from_me : Bool
  is_group : Bool
  push_name : String
  timestamp : String
  message_type : String
  media_type : String
  category : String
deriving Repr, DecidableEq

/-- Serde deserialization of `MessageInfo`: `ID`, `Chat`, `Sender`,
`IsFromMe`, `IsGroup`, `Timestamp` are required; `SenderAlt`, `PushName`,
`Type`, `MediaType`, `Category` carry `serde(default)`. -/
def MessageInfo.fromValue (j : Json) : Except String MessageInfo := do
  let id ← reqStr j "ID"
  let chat ← reqStr j "Chat"
  let sender ← reqStr j "Sender"
  let sender_alt ← defStr j "SenderAlt"
  let is_from_me ← reqBool j "IsFromMe"
  let is_group ← reqBool j "IsGroup"
  let push_name ← defStr j "PushName"
  let timestamp ← reqStr j "Timestamp"
  let message_type ← defStr j "Type"
  let media_type ← defStr j "MediaType"
  let category ← defStr j "Category"
  .ok ⟨id, chat, sender, sender_alt, is_from_me, is_group, push_name,
       timestamp, message_type, media_type, category⟩

/-- Embedding of `MessageEvent` in `events.rs`. -/
structure MessageEvent where
  info : MessageInfo
  message : Option Json
  is_edit : Bool
  is_ephemeral : Bool
  is_view_once : Bool
  is_document_with_caption : Bool
deriving Repr

/-- Serde deserialization of `MessageEvent`: `Info` is required, `Message`
is an `Option<Value>` with `serde(default)`, the flags carry
`serde(default)`. -/
def MessageEvent.fromValue (j : Json) : Except String MessageEvent := do
  let info ←
    match j.get "Info" with
    | none => Except.error "missing field Info"
    | some v => MessageInfo.fromValue v
  let message := optValue j "Message"
  let is_edit ← defBool j "IsEdit"
  let is_ephemeral ← defBool j "IsEphemeral"
  let is_view_once ← defBool j "IsViewOnce"
  let is_dwc ← defBool j "IsDocumentWithCaption"
  .ok ⟨info, message, is_edit, is_ephemeral, is_view_once, is_dwc⟩

/-- Embedding of `MessageEvent::sender_name`: the push name when nonempty,
otherwise the part of the sender JID before the first at-sign. -/
def MessageEvent.sender_name (e : MessageEvent) : String :=
  if ¬ e.info.push_name.isEmpty then e.info.push_name
  else
    match (e.info.sender.splitOn "@").head? with
    | some s => s
    | none => e.info.sender

/-- Embedding of `MessageEvent::text`: the payload's `conversation` string
when present, else `extendedTextMessage.text` when present, else the empty
string. -/
def MessageEvent.text (e : MessageEvent) : String :=
  match e.message with
  | some msg =>
    match (msg.get "conversation").bind Json.asStr with
    | some t => t
    | none =>
      match msg.get "extendedTextMessage" with
      | some ext =>
        match (ext.get "text").bind Json.asStr with
        | some t => t
        | none => ""
      | none => ""
  | none => ""

/-- Embedding of `ReceiptEvent` in `events.rs`. -/
structure ReceiptEvent where
  message_ids : List String
  chat : String
  sender : String
  receipt_type : String
  timestamp : String
deriving Repr, DecidableEq

/-- Serde deserialization of `ReceiptEvent` (all fields required). -/
def ReceiptEvent.fromValue (j : Json) : Except String ReceiptEvent := do
  let ids ← reqStrList j "MessageIDs"
  let chat ← reqStr j "Chat"
  let sender ← reqStr j "Sender"
  let ty ← reqStr j "Type"
  let ts ← reqStr j "Timestamp"
  .ok ⟨ids, chat, sender, ty, ts⟩

/-- Embedding of `PresenceEvent` in `events.rs`. -/
structure PresenceEvent where
  from_ : String
  unavailable : Bool
  last_seen : String
deriving Repr, DecidableEq

/-- Serde deserialization of `PresenceEvent` (all fields required). -/
def PresenceEvent.fromValue (j : Json) : Except String PresenceEvent := do
  let f ← reqStr j "From"
  let u ← reqBool j "Unavailable"
  let ls ← reqStr j "LastSeen"
  .ok ⟨f, u, ls⟩

/-- Embedding of `OfflineSyncPreviewEvent` in `events.rs`. -/
structure OfflineSyncPreviewEvent where
  total : Int
  app_data_changes : Int
  messages : Int
  notifications : Int
  receipts : Int
deriving Repr, DecidableEq

/-- Serde deserialization of `OfflineSyncPreviewEvent` (all fields
required). -/
def OfflineSyncPreviewEvent.fromValue (j : Json) :
    Except String OfflineSyncPreviewEvent := do
  let t ← reqInt j "Total"
  let a ← reqInt j "AppDataChanges"
  let m ← reqInt j "Messages"
  let n ← reqInt j "Notifications"
  let r ← reqInt j "Receipts"
  .ok ⟨t, a, m, n, r⟩

/-- Embedding of `OfflineSyncCompletedEvent` in `events.rs`. -/
structure OfflineSyncCompletedEvent where
  count : Int
deriving Repr, DecidableEq

/-- Serde deserialization of `OfflineSyncCompletedEvent` (field `Count`
required). -/
def OfflineSyncCompletedEvent.fromValue (j : Json) :
    Except String OfflineSyncCompletedEvent := do
  let c ← reqInt j "Count"
  .ok ⟨c⟩

/-- Embedding of the `Event` enum in `events.rs`. -/
inductive Event where
  | qr (e : QrEvent)
  | pairSuccess (e : PairSuccessEvent)
  | connected
  | disconnected
  | loggedOut (e : LoggedOutEvent)
  | message (e : MessageEvent)
  | receipt (e : ReceiptEvent)
  | presence (e : PresenceEvent)
  | historySync
  | offlineSyncPreview (e : OfflineSyncPreviewEvent)
  | offlineSyncCompleted (e : OfflineSyncCompletedEvent)
  | unknown (event_type : String) (data : Option Json)
deriving Repr

/-- Embedding of the internal `RawEvent` envelope in `events.rs`. -/
structure RawEvent where
  event_type : String
  timestamp : Int
  data : Option Json
deriving Repr

/-- Serde deserialization of `RawEvent`: `type` (renamed) and `timestamp`
are required, `data` is an `Option<Value>` with `serde(default)`. -/
def RawEvent.fromValue (j : Json) : Except String RawEvent := do
  let t ← reqStr j "type"
  let ts ← reqInt j "timestamp"
  .ok ⟨t, ts, optValue j "data"⟩

/-- Embedding of `RawEvent::into_event` in `events.rs`: dispatch on the
`type` tag, deserializing the payload when present. -/
def RawEvent.intoEvent (r : RawEvent) : Except String Event :=
  match r.event_type with
  | "qr" =>
    match r.data with
    | some d => (QrEvent.fromValue d).map Event.qr
    | none => .ok (Event.unknown "qr" none)
  | "pair_success" =>
    match r.data with
    | some d => (PairSuccessEvent.fromValue d).map Event.pairSuccess
    | none => .ok Event.connected
  | "connected" => .ok Event.connected
  | "disconnected" => .ok Event.disconnected
  | "logged_out" =>
    match r.data with
    | some d => (LoggedOutEvent.fromValue d).map Event.loggedOut
    | none => .ok Event.disconnected
  | "message" =>
    match r.data with
    | some d => (MessageEvent.fromValue d).map Event.message
    | none => .ok (Event.unknown "message" none)
  | "receipt" =>
    match r.data with
    | some d => (ReceiptEvent.fromValue d).map Event.receipt
    | none => .ok (Event.unknown "receipt" none)
  | "presence" =>
    match r.data with
    | some d => (PresenceEvent.fromValue d).map Event.presence
    | none => .ok (Event.unknown "presence" none)
  | "history_sync" => .ok Event.historySync
  | "offline_sync_preview" =>
    match r.data with
    | some d => (OfflineSyncPreviewEvent.fromValue d).map Event.offlineSyncPreview
    | none => .ok (Event.unknown "offline_sync_preview" none)
  | "offline_sync_completed" =>
    match r.data with
    | some d => (OfflineSyncCompletedEvent.fromValue d).map Event.offlineSyncCompleted
    | none => .ok (Event.unknown "offline_sync_completed" none)
  | other => .ok (Event.unknown other r.data)

/-- Embedding of the `Error` enum in `error.rs` (variants relevant to the
client core; payload strings kept). -/
inductive Error where
  | init (msg : String)
  | connection (msg : String)
  | disconnected
  | invalidHandle
  | ffi (code : Int) (message : String)
  | eventParse (msg : String)
  | send (msg : String)
deriving Repr, DecidableEq

/-- Embedding of `FfiClient::check_result` in `ffi.rs`, with the error
codes of `whatsmeow-sys` (`WM_OK = 0`, `WM_ERR_INIT = -1`,
`WM_ERR_CONNECT = -2`, `WM_ERR_DISCONNECTED = -3`,
`WM_ERR_INVALID_HANDLE = -4`). -/
def checkResult (code : Int) : Except Error Unit :=
  if code = 0 then .ok ()
  else if code = -1 then .error (Error.init "Initialization failed")
  else if code = -2 then .error (Error.connection "Connection failed")
  else if code = -3 then .error Error.disconnected
  else if code = -4 then .error Error.invalidHandle
  else .error (Error.ffi code "Unknown error")

/-- True exactly when the string contains an embedded NUL byte, the
condition under which `CString::new` fails in `FfiClient::send_message`. -/
def containsNul (s : String) : Bool :=
  s.toList.contains '\x00'

/-- Embedding of `FfiClient::send_message` in `ffi.rs`.  `nativeResult` is
the code the native `wm_send_message` call would return; the `Bool`
records whether that native call was actually invoked.  The two `CString`
conversions run before the native call, `jid` first. -/
def FfiClient.send_message (jid text : String) (nativeResult : Int) :
    Except Error Unit × Bool :=
  if containsNul jid then (.error (Error.send "JID contains null byte"), false)
  else if containsNul text then (.error (Error.send "Text contains null byte"), false)
  else (checkResult nativeResult, true)

/-- Decoding of one polled envelope as the loop body of `InnerClient::run`
performs it: `serde_json::from_slice::<RawEvent>` followed by
`RawEvent::into_event`; each stage reports an explicit error. -/
def decodeEnvelope (bytes : String) : Except String Event := do
  let j ← parseJson bytes
  let raw ← RawEvent.fromValue j
  raw.intoEvent

/-- Outcome of one `FfiClient::poll_event` call as observed by the loop in
`InnerClient::run`: an event buffer, no pending event, or a typed error. -/
inductive PollOutcome where
  | event (bytes : String)
  | empty
  | fail (e : Error)
deriving Repr

/-- One observable action of the loop body in `InnerClient::run`: a
`Handlers::dispatch` call or an `EventBus::emit` call. -/
inductive Action where
  | dispatch (e : Event)
  | emit (e : Event)
deriving Repr

/-- Embedding of the loop of `InnerClient::run` over a finite trace of
poll outcomes (the list ends when the shutdown signal is observed).  A
poll error propagates out through `?` and terminates the loop; a decodable
envelope is dispatched to the handlers and then emitted on the bus; an
undecodable envelope is silently skipped (`if let Ok` in the source); an
empty poll idles and continues. -/
def runLoop : List PollOutcome → List Action × Except Error Unit
  | [] => ([], .ok ())
  | .fail e :: _ => ([], .error e)
  | .empty :: rest => runLoop rest
  | .event b :: rest =>
    match decodeEnvelope b with
    | .ok ev =>
      let (acts, res) := runLoop rest
      (Action.dispatch ev :: Action.emit ev :: acts, res)
    | .error _ => runLoop rest

/-- Specification-side view of a poll trace: the decoded events in the
order the native layer produced them, cut off at the first poll error. -/
def decodedEvents : List PollOutcome → List Event
  | [] => []
  | .fail _ :: _ => []
  | .empty :: rest => decodedEvents rest
  | .event b :: rest =>
    match decodeEnvelope b with
    | .ok ev => ev :: decodedEvents rest
    | .error _ => decodedEvents rest

/-- Embedding of `WhatsAppManager` in `manager.rs`: the `DashMap` of
clients as an association list from client id to an abstract client
reference. -/
structure WhatsAppManager where
  clients : List (String × Nat)
deriving Repr, DecidableEq

/-- Embedding of `WhatsAppManager::new`. -/
def WhatsAppManager.new : WhatsAppManager := ⟨[]⟩

/-- Result of `WhatsAppManager::spawn`: the builder carries only the
database path here. -/
structure WhatsAppBuilder where
  db_path : String
deriving Repr, DecidableEq

/-- Embedding of `WhatsAppManager::spawn` in `manager.rs`, with the map
state threaded explicitly.  The source checks `contains_key` and then
returns a builder; it performs no insertion, so the resulting map is the
input map unchanged. -/
def WhatsAppManager.spawn (m : WhatsAppManager) (id db_path : String) :
    Except Error WhatsAppBuilder × WhatsAppManager :=
  if m.clients.any (fun p => p.1 = id) then
    (.error (Error.init ("Client " ++ id ++ " already exists")), m)
  else
    (.ok ⟨db_path⟩, m)

/-- Embedding of `WhatsAppManager::get`: lookup of a registered client by
id. -/
def WhatsAppManager.get (m : WhatsAppManager) (id : String) : Option Nat :=
  m.clients.lookup id

/-- Embedding of `WhatsAppManager::count`. -/
def WhatsAppManager.count (m : WhatsAppManager) : Nat :=
  m.clients.length

/-- Observable coordinator state of `InnerClient` in `inner.rs`: the value
of the shutdown `watch` channel and the `connected` atomic flag. -/
structure CoordState where
  shutdown : Bool
  connected : Bool
deriving Repr, DecidableEq

/-- Embedding of `InnerClient::disconnect` in `inner.rs`: send the
shutdown signal, attempt a best-effort native disconnect when `try_lock`
succeeds (its result is discarded), then store `connected = false`.  The
`lockFree` argument is whether the FFI mutex is immediately available; the
returned `Bool` records whether the native disconnect was attempted. -/
def InnerClient.disconnect (_s : CoordState) (lockFree : Bool) :
    CoordState × Bool :=
  ({ shutdown := true, connected := false }, lockFree)

/-- Embedding of `InnerClient::is_connected`. -/
def InnerClient.is_connected (s : CoordState) : Bool :=
  s.connected

/-- State of the `tokio::sync::broadcast` channel backing the event bus.
Modelled from the spec: the channel itself is an external collaborator
(the `tokio` crate, not in `src/`); per §3 and §4.4 it is a bounded ring
of the most recent `capacity` events with one independent cursor per
subscriber, and `closed` when the sender is gone.  `history` lists every
event ever sent, oldest first. -/
structure BroadcastState where
  history : List Event
  capacity : Nat
  closed : Bool

/-- Receiver cursor of one event-bus subscription: index into the full
send history of the next event to read. -/
structure Receiver where
  cursor : Nat
deriving Repr, DecidableEq

/-- Result alphabet of `broadcast::Receiver::try_recv`. -/
inductive TryRecvResult where
  | ok (e : Event)
  | empty
  | lagged (n : Nat)
  | closed
deriving Repr

/-- Modelled from the spec: `broadcast::Receiver::try_recv` (external
`tokio` collaborator).  A cursor older than the oldest retained event
reports `lagged n` (`n` skipped events) and advances to the oldest
retained event; a cursor at the head reports `empty`, or `closed` when the
sender is gone; otherwise the event at the cursor is returned and the
cursor advances. -/
def tryRecv (b : BroadcastState) (r : Receiver) : TryRecvResult × Receiver :=
  let len := b.history.length
  let oldest := len - min len b.capacity
  if r.cursor < oldest then
    (.lagged (oldest - r.cursor), ⟨oldest⟩)
  else if h : r.cursor < len then
    (.ok (b.history.get ⟨r.cursor, h⟩), ⟨r.cursor + 1⟩)
  else if b.closed then
    (.closed, r)
  else
    (.empty, r)

/-- Output alphabet of `Stream::poll_next`. -/
inductive StreamPoll where
  | ready (item : Option Event)
  | pending
deriving Repr

/-- Embedding of `EventStream::poll_next` in `stream.rs`: `Ok` yields the
event, `Empty` and `Lagged` both become `Pending` (after waking the
waker), `Closed` ends the stream. -/
def EventStream.poll_next (b : BroadcastState) (r : Receiver) :
    StreamPoll × Receiver :=
  match tryRecv b r with
  | (.ok e, r1) => (.ready (some e), r1)
  | (.empty, r1) => (.pending, r1)
  | (.lagged _, r1) => (.pending, r1)
  | (.closed, r1) => (.ready none, r1)

/-- Specification-side restatement of the text-extraction contract, in the
spec's words: the payload's `conversation` string if present, otherwise
the payload's `extendedTextMessage.text` string if present, otherwise the
empty string. -/
def MessageEvent.textSpec (e : MessageEvent) : String :=
  match e.message.bind fun m => (m.get "conversation").bind Json.asStr with
  | some t => t
  | none =>
    match e.message.bind fun m =>
        (m.get "extendedTextMessage").bind fun ext =>
          (ext.get "text").bind Json.asStr with
    | some t => t
    | none => ""

/-- Example envelope of §8 of the specification (JSON text). -/
def c9Envelope : String :=
  "\x7b\"type\":\"message\",\"timestamp\":1000,\"data\":\x7b\"Info\":\x7b\"ID\":\"1\",\"Chat\":\"c@g.us\",\"Sender\":\"s@g.us\",\"IsFromMe\":false,\"IsGroup\":true,\"PushName\":\"Bot\",\"Timestamp\":\"1000\"\x7d,\"Message\":\x7b\"conversation\":\"hi\"\x7d\x7d\x7d"

/-- Envelope with a known `type` whose payload shape mismatches (a
`message` with an empty object as data, lacking the required `Info`). -/
def badShapeEnvelope : String :=
  "\x7b\"type\":\"message\",\"timestamp\":1,\"data\":\x7b\x7d\x7d"

/-- Broadcast channel whose single subscriber is three events behind on a
ring of capacity one. -/
def lagBus : BroadcastState :=
  ⟨[Event.connected, Event.disconnected, Event.historySync], 1, false⟩

/-- Broadcast channel with no events sent yet. -/
def emptyBus : BroadcastState := ⟨[], 1, false⟩

/-- Message event whose structured payload is absent. -/
def noPayloadMessage : MessageEvent :=
  ⟨⟨"1", "c@g.us", "s@g.us", "", false, true, "Bot", "1000", "", "", ""⟩,
   none, false, false, false, false⟩

/-- Decoding an envelope with any known-or-unknown `type` and absent
`data` never fails. -/
theorem intoEvent_none_ok (t : String) (ts : Int) :
    ∃ e, RawEvent.intoEvent ⟨t, ts, none⟩ = .ok e := by
  unfold RawEvent.intoEvent
  split <;> exact ⟨_, rfl⟩

/-- C1: the claim states that every known payload-requiring tag decodes,
with absent `data`, to `Unknown` tagged with that type, the sole
exceptions being `connected` and `disconnected`.  False: `pair_success`
requires a payload, yet with absent `data` it decodes to `Connected`, not
to `Unknown "pair_success"`. -/
theorem C1_counterexample :
    RawEvent.intoEvent ⟨"pair_success", 0, none⟩ = .ok Event.connected ∧
    Event.connected ≠ Event.unknown "pair_success" none :=
  ⟨rfl, fun h => nomatch h⟩

/-- C1 amended: with absent `data`, the tags `qr`, `message`, `receipt`,
`presence`, `offline_sync_preview` and `offline_sync_completed` decode to
`Unknown` tagged with that type; `pair_success` decodes to `Connected` and
`logged_out` to `Disconnected`; `connected`, `disconnected` and
`history_sync` require no payload; and decoding with absent `data` never
fails, whatever the tag. -/
theorem C1_amended (t : String) (ts : Int) :
    (t ∈ ["qr", "message", "receipt", "presence", "offline_sync_preview",
          "offline_sync_completed"] →
      RawEvent.intoEvent ⟨t, ts, none⟩ = .ok (Event.unknown t none)) ∧
    RawEvent.intoEvent ⟨"pair_success", ts, none⟩ = .ok Event.connected ∧
    RawEvent.intoEvent ⟨"logged_out", ts, none⟩ = .ok Event.disconnected ∧
    RawEvent.intoEvent ⟨"connected", ts, none⟩ = .ok Event.connected ∧
    RawEvent.intoEvent ⟨"disconnected", ts, none⟩ = .ok Event.disconnected ∧
    RawEvent.intoEvent ⟨"history_sync", ts, none⟩ = .ok Event.historySync ∧
    ∃ e, RawEvent.intoEvent ⟨t, ts, none⟩ = .ok e := by
  refine ⟨?_, rfl, rfl, rfl, rfl, rfl, intoEvent_none_ok t ts⟩
  intro h
  fin_cases h <;> rfl

/-- Witness for C1 amended at the tag `qr`. -/
theorem C1_amended_witness :
    RawEvent.intoEvent ⟨"qr", 0, none⟩ = .ok (Event.unknown "qr" none) :=
  (C1_amended "qr" 0).1 (by decide)

/-- C2: the claim states that a second `spawn` with an identifier that
already exists returns an error and that exactly one entry is then
registered.  On the code, `spawn` never inserts into the client map, so
the duplicate check can never fire: both calls succeed and the registry
stays empty (`count = 0`, `get` finds nothing). -/
theorem C2_failing :
    (WhatsAppManager.new.spawn "a" "db").1 = Except.ok ⟨"db"⟩ ∧
    ((WhatsAppManager.new.spawn "a" "db").2.spawn "a" "db").1 = Except.ok ⟨"db"⟩ ∧
    ((WhatsAppManager.new.spawn "a" "db").2.spawn "a" "db").2.count = 0 ∧
    ((WhatsAppManager.new.spawn "a" "db").2.spawn "a" "db").2.get "a" = none :=
  ⟨rfl, rfl, rfl, rfl⟩

/-- C3: the claim states that a per-call `Disconnected` poll failure does
not terminate `run()` and is retried on the next iteration.  False: the
loop propagates every poll error with `?`, so `run` returns
`Err(Disconnected)` at once and the decodable envelope queued right after
it is never processed. -/
theorem C3_counterexample :
    runLoop [PollOutcome.fail Error.disconnected, PollOutcome.event c9Envelope] =
      ([], Except.error Error.disconnected) := rfl

/-- C3 amended: `run()` terminates with an error on the first failing
poll call, whatever the error — `Disconnected` included; no poll error is
retried (only undecodable envelopes are skipped without terminating). -/
theorem C3_amended (e : Error) (rest : List PollOutcome) :
    runLoop (PollOutcome.fail e :: rest) = ([], Except.error e) := rfl

/-- C4: the claim states that a subscriber falling more than the ring
capacity behind is signaled a distinguishable lag notification.  False:
`EventStream::poll_next` maps the receiver's `Lagged` result to `Pending`,
the very output an empty non-lagged wait produces, so the subscription's
output carries no lag signal. -/
theorem C4_counterexample :
    (tryRecv lagBus ⟨0⟩).1 = TryRecvResult.lagged 2 ∧
    (EventStream.poll_next lagBus ⟨0⟩).1 = StreamPoll.pending ∧
    (EventStream.poll_next emptyBus ⟨0⟩).1 = StreamPoll.pending ∧
    (EventStream.poll_next lagBus ⟨0⟩).1 = (EventStream.poll_next emptyBus ⟨0⟩).1 :=
  ⟨rfl, rfl, rfl, rfl⟩

/-- C4 amended: a subscriber that falls more than the ring capacity
behind is not terminated: the underlying receiver reports `lagged`,
`poll_next` absorbs it into `Pending` (indistinguishable from an empty
wait), the cursor advances to the oldest still-available event, and the
next poll yields that oldest event. -/
theorem C4_amended (b : BroadcastState) (r : Receiver)
    (hcap : 0 < b.capacity)
    (hlag : r.cursor + b.capacity < b.history.length) :
    (tryRecv b r).1 =
      TryRecvResult.lagged (b.history.length - b.capacity - r.cursor) ∧
    (EventStream.poll_next b r).1 = StreamPoll.pending ∧
    ((EventStream.poll_next b r).2).cursor = b.history.length - b.capacity ∧
    ∃ e, b.history.get? (b.history.length - b.capacity) = some e ∧
      (EventStream.poll_next b ((EventStream.poll_next b r).2)).1 =
        StreamPoll.ready (some e) := by
  have hmin : min b.history.length b.capacity = b.capacity := by omega
  have hcur : r.cursor < b.history.length - b.capacity := by omega
  have hidx : b.history.length - b.capacity < b.history.length := by omega
  have h1 : tryRecv b r =
      (TryRecvResult.lagged (b.history.length - b.capacity - r.cursor),
       ⟨b.history.length - b.capacity⟩) := by
    simp only [tryRecv, hmin]
    rw [if_pos hcur]
  have h2 : tryRecv b ⟨b.history.length - b.capacity⟩ =
      (TryRecvResult.ok (b.history.get ⟨b.history.length - b.capacity, hidx⟩),
       ⟨b.history.length - b.capacity + 1⟩) := by
    have hnot : ¬ (b.history.length - b.capacity <
        b.history.length - b.capacity) := lt_irrefl _
    simp only [tryRecv, hmin]
    rw [if_neg hnot, dif_pos hidx]
  refine ⟨by rw [h1], ?_, ?_, ?_⟩
  · simp only [EventStream.poll_next, h1]
  · simp only [EventStream.poll_next, h1]
  · exact ⟨b.history.get ⟨b.history.length - b.capacity, hidx⟩,
      List.get?_eq_get hidx,
      by simp only [EventStream.poll_next, h1, h2]⟩

/-- Witness for C4 amended: capacity one, three events sent, subscriber
cursor at zero. -/
theorem C4_amended_witness :
    (tryRecv lagBus ⟨0⟩).1 =
      TryRecvResult.lagged (lagBus.history.length - lagBus.capacity - 0) ∧
    (EventStream.poll_next lagBus ⟨0⟩).1 = StreamPoll.pending ∧
    ((EventStream.poll_next lagBus ⟨0⟩).2).cursor =
      lagBus.history.length - lagBus.capacity ∧
    ∃ e, lagBus.history.get? (lagBus.history.length - lagBus.capacity) = some e ∧
      (EventStream.poll_next lagBus ((EventStream.poll_next lagBus ⟨0⟩).2)).1 =
        StreamPoll.ready (some e) :=
  C4_amended lagBus ⟨0⟩ (by decide) (by decide)

/-- C5: an envelope whose bytes are malformed JSON or whose payload shape
mismatches a known `type` decodes to an explicit parse error, exactly that
one envelope is dropped, and the polling loop continues: the loop over
that envelope followed by any remaining trace behaves exactly as the loop
over the remaining trace. -/
theorem C5_bad_envelope_skipped (b msg : String) (rest : List PollOutcome)
    (h : decodeEnvelope b = Except.error msg) :
    runLoop (PollOutcome.event b :: rest) = runLoop rest := by
  simp [runLoop, h]

/-- Witness for C5 on malformed JSON and on a known-type shape mismatch:
both produce explicit errors and both envelopes are skipped. -/
theorem C5_witness :
    decodeEnvelope "\x7b" = Except.error "malformed JSON" ∧
    runLoop [PollOutcome.event "\x7b", PollOutcome.event c9Envelope] =
      runLoop [PollOutcome.event c9Envelope] ∧
    decodeEnvelope badShapeEnvelope = Except.error "missing field Info" ∧
    runLoop [PollOutcome.event badShapeEnvelope] = runLoop [] :=
  ⟨rfl, C5_bad_envelope_skipped "\x7b" "malformed JSON" _ rfl,
   rfl, C5_bad_envelope_skipped badShapeEnvelope "missing field Info" _ rfl⟩

/-- C6: the loop's observable actions are, for each decoded event in the
exact native production order, a `Handlers::dispatch` call followed by an
`EventBus::emit` call — dispatch precedes emit for every event and no
reordering occurs across event kinds. -/
theorem C6_dispatch_then_emit_in_order (ps : List PollOutcome) :
    (runLoop ps).1 =
      (decodedEvents ps).flatMap (fun e => [Action.dispatch e, Action.emit e]) := by
  induction ps with
  | nil => rfl
  | cons p rest ih =>
    cases p with
    | fail e => rfl
    | empty => simpa [runLoop, decodedEvents] using ih
    | event b =>
      cases hd : decodeEnvelope b <;>
        simp [runLoop, decodedEvents, hd, ih]

/-- C7: `disconnect` is total over every coordinator state (including one
where `connect` never succeeded) and whatever the availability of the FFI
lock; after it `is_connected` is `false`, and a second `disconnect` leaves
the coordinator state exactly as the first did. -/
theorem C7_disconnect_idempotent (s : CoordState) (l1 l2 : Bool) :
    InnerClient.is_connected (InnerClient.disconnect s l1).1 = false ∧
    (InnerClient.disconnect s l1).1.connected = false ∧
    (InnerClient.disconnect (InnerClient.disconnect s l1).1 l2).1 =
      (InnerClient.disconnect s l1).1 :=
  ⟨rfl, rfl, rfl⟩

/-- C8: when the recipient or the text contains an embedded NUL byte,
`send_message` returns a local `Send` validation error and the native call
is never invoked. -/
theorem C8_nul_validation (jid text : String) (code : Int)
    (h : containsNul jid = true ∨ containsNul text = true) :
    (FfiClient.send_message jid text code).2 = false ∧
    ∃ msg, (FfiClient.send_message jid text code).1 =
      Except.error (Error.send msg) := by
  unfold FfiClient.send_message
  rcases h with h | h
  · simp [h]
  · by_cases hj : containsNul jid <;> simp [hj, h]

/-- C8 converse direction: the native layer is reached exactly when both
strings are NUL-free. -/
theorem send_message_reaches_native_iff (jid text : String) (code : Int) :
    (FfiClient.send_message jid text code).2 = true ↔
      (containsNul jid = false ∧ containsNul text = false) := by
  unfold FfiClient.send_message
  by_cases hj : containsNul jid <;> by_cases ht : containsNul text <;>
    simp [hj, ht]

/-- Witness for C8 at a recipient with an embedded NUL byte. -/
theorem C8_witness :
    (containsNul "a\x00b" = true ∨ containsNul "hi" = true) ∧
    (FfiClient.send_message "a\x00b" "hi" 0).2 = false ∧
    ∃ msg, (FfiClient.send_message "a\x00b" "hi" 0).1 =
      Except.error (Error.send msg) :=
  ⟨Or.inl (by decide),
   (C8_nul_validation "a\x00b" "hi" 0 (Or.inl (by decide))).1,
   (C8_nul_validation "a\x00b" "hi" 0 (Or.inl (by decide))).2⟩

set_option maxRecDepth 100000 in
/-- C9: the example envelope of §8 decodes to a `Message` event whose
extracted text is `"hi"` and whose sender display name is `"Bot"`. -/
theorem C9_example_envelope :
    ∃ me : MessageEvent,
      decodeEnvelope c9Envelope = Except.ok (Event.message me) ∧
      me.text = "hi" ∧ me.sender_name = "Bot" :=
  ⟨⟨⟨"1", "c@g.us", "s@g.us", "", false, true, "Bot", "1000", "", "", ""⟩,
    some (Json.obj [("conversation", Json.str "hi")]),
    false, false, false, false⟩,
   rfl, rfl, rfl⟩

/-- C10: `text()` is total and agrees with the spec's case order —
`conversation` if present, else `extendedTextMessage.text` if present,
else the empty string — and an absent structured payload yields the empty
string. -/
theorem C10_text_total (e : MessageEvent) :
    e.text = e.textSpec ∧ (e.message = none → e.text = "") := by
  constructor
  · cases hm : e.message with
    | none => simp [MessageEvent.text, MessageEvent.textSpec, hm]
    | some m =>
      cases hc : (m.get "conversation").bind Json.asStr with
      | some t => simp [MessageEvent.text, MessageEvent.textSpec, hm, hc]
      | none =>
        cases hext : m.get "extendedTextMessage" with
        | none => simp [MessageEvent.text, MessageEvent.textSpec, hm, hc, hext]
        | some ext =>
          cases ht : (ext.get "text").bind Json.asStr <;>
            simp [MessageEvent.text, MessageEvent.textSpec, hm, hc, hext, ht]
  · intro h
    simp [MessageEvent.text, h]

/-- Witness for C10 at a message event with absent payload. -/
theorem C10_witness :
    noPayloadMessage.text = noPayloadMessage.textSpec ∧
    (noPayloadMessage.message = none → noPayloadMessage.text = "") ∧
    noPayloadMessage.text = "" :=
  ⟨(C10_text_total noPayloadMessage).1,
   (C10_text_total noPayloadMessage).2,
   (C10_text_total noPayloadMessage).2 rfl⟩

end Whatsmeow
